import Mathlib

/-!
Verification of the segment-commit, per-field-dispatch and
postings-backing-store core of the golucene repository, via a shallow
embedding of the Go sources
(`core/index/segmentInfoPerCommit.go`, `core/index/perfield.go`,
`core/index/invertedDocConsumerPerField.go`) into Lean.

Go machine integers (`int`, `int64`) are modelled as `Int` (no operation
here approaches 64-bit overflow); Go maps are modelled as association
lists with cons-shadowing writes; Go `(value, error)` returns and panics
are modelled with `Except String`.
-/

/- ## Segment commit record (segmentInfoPerCommit.go) -/

/--
Shallow embedding of `SegmentCommitInfo`.  The wrapped `model.SegmentInfo`
is external to the repository, so the pieces of it the claims need are
carried inline: `docCount` stands for `info.DocCount()`, and `files` for
the file names the external collaborators (`info.Files()` and the
live-docs codec) would contribute to the union in `Files()` — dead code
in the source, whose body begins with an unconditional panic.
-/
structure SegmentCommitInfo where
  delCount : Int
  delGen : Int
  nextWriteDelGen : Int
  sizeInBytes : Int
  bufferedUpdatesGen : Int
  docCount : Int
  files : List String
deriving DecidableEq, Repr

/--
Embedding of `advanceDelGen`.  The Go source is the simultaneous tuple
assignment
`info.delGen, info.nextWriteDelGen = info.nextWriteDelGen, info.delGen+1`:
both right-hand sides are evaluated from the pre-call state, so the new
`nextWriteDelGen` is the OLD `delGen` plus one, then the size cache is
reset to the unset sentinel.
-/
def advanceDelGen (si : SegmentCommitInfo) : SegmentCommitInfo :=
  { si with
    delGen := si.nextWriteDelGen
    nextWriteDelGen := si.delGen + 1
    sizeInBytes := -1 }

/-- Embedding of `advanceNextWriteDelGen`: increments only that field. -/
def advanceNextWriteDelGen (si : SegmentCommitInfo) : SegmentCommitInfo :=
  { si with nextWriteDelGen := si.nextWriteDelGen + 1 }

/-- Embedding of `HasDeletions`. -/
def HasDeletions (si : SegmentCommitInfo) : Bool :=
  si.delGen != -1

/--
Embedding of `setDelCount`: `assert2` with a failed condition panics, so
out-of-range values are an error; in-range values update `delCount`.
-/
def setDelCount (si : SegmentCommitInfo) (delCount : Int) : Except String SegmentCommitInfo :=
  if 0 ≤ delCount ∧ delCount ≤ si.docCount then
    .ok { si with delCount := delCount }
  else
    .error "invalid delCount"

/-- Embedding of `setBufferedUpdatesGen`: stores `v` and resets the size cache. -/
def setBufferedUpdatesGen (si : SegmentCommitInfo) (v : Int) : SegmentCommitInfo :=
  { si with bufferedUpdatesGen := v, sizeInBytes := -1 }

/--
The storage directory collaborator, reduced to the one operation
`SizeInBytes` consumes: `FileLength(name) -> (bytes, error)`.
-/
structure Directory where
  fileLength : String → Except String Int

/--
The summation loop inside `SizeInBytes`: walks the file list left to
right, stops at the first failing `FileLength` query, and also reports
how many directory queries were performed.
-/
def sumLoop (d : Directory) : List String → Except String Int × Nat
  | [] => (.ok 0, 0)
  | f :: fs =>
    match d.fileLength f with
    | .error e => (.error e, 1)
    | .ok n =>
      match sumLoop d fs with
      | (.error e, c) => (.error e, c + 1)
      | (.ok s, c) => (.ok (n + s), c + 1)

/-- Result of one `SizeInBytes` call: the returned value or error, the
record afterwards, and the number of `FileLength` queries performed. -/
structure SizeResult where
  result : Except String Int
  state : SegmentCommitInfo
  queries : Nat
deriving Repr

/--
Embedding of `Files`: the source body is `panic("not implemented yet")`
followed by dead code that would union the wrapped segment descriptor's
own file names with the live-docs file names.  Faithfully, every call
fails with that panic.
-/
def Files (_si : SegmentCommitInfo) : Except String (List String) :=
  .error "panic: not implemented yet"

/--
Embedding of `SizeInBytes`: when the cache holds the unset sentinel `-1`
it calls `Files()` — whose panic propagates before any `FileLength`
query — and would then sum the directory-reported length of every file,
caching the sum on success and propagating the first query error with
the record untouched; when the cache is set it answers from the cache
with no directory query.
-/
def SizeInBytes (d : Directory) (si : SegmentCommitInfo) : SizeResult :=
  if si.sizeInBytes = -1 then
    match Files si with
    | .error e => ⟨.error e, si, 0⟩
    | .ok fs =>
      match sumLoop d fs with
      | (.error e, c) => ⟨.error e, si, c⟩
      | (.ok s, c) => ⟨.ok s, { si with sizeInBytes := s }, c⟩
  else
    ⟨.ok si.sizeInBytes, si, 0⟩

/- ## Per-field format dispatcher, write side (perfield.go) -/

def PER_FIELD_FORMAT_KEY : String := "PerFieldPostingsFormat.format"

def PER_FIELD_SUFFIX_KEY : String := "PerFieldPostingsFormat.suffix"

/--
A postings format instance.  The write-side routing map is keyed by Go
object identity, so an instance is a pair of an identity `id` and the
format `name` it reports; two instances with the same name but different
`id` are distinct map keys, exactly as two distinct Go pointers are.
-/
structure PostingsFormat where
  id : Nat
  name : String
deriving DecidableEq, Repr

/--
The slice of the external `model.FieldInfo` that `addField` touches: the
field name and its string attribute bag (`PutAttribute` returns the
previous value, empty string when the key was absent).
-/
structure FieldInfoW where
  name : String
  attrs : List (String × String)
deriving DecidableEq, Repr

def putAttribute (fi : FieldInfoW) (k v : String) : String × FieldInfoW :=
  ((fi.attrs.lookup k).getD "", { fi with attrs := (k, v) :: fi.attrs })

/-- Embedding of `FieldsConsumerAndSuffix`; the opened consumer object is
modelled by a fresh identity number. -/
structure FieldsConsumerAndSuffix where
  consumer : Nat
  suffix : Nat
deriving DecidableEq, Repr

/-- Embedding of `PerFieldPostingsWriter`: the instance-keyed `formats`
map, the name-keyed `suffixes` map, a counter supplying fresh consumer
identities, and the outer segment suffix from the write state. -/
structure PerFieldPostingsWriter where
  formats : List (PostingsFormat × FieldsConsumerAndSuffix)
  suffixes : List (String × Nat)
  nextConsumerId : Nat
  outerSuffix : String
deriving DecidableEq, Repr

/-- The helper named with a leading underscore in the Go source. -/
def suffixOf (formatName suffix : String) : String :=
  formatName ++ "_" ++ suffix

/-- Embedding of `fullSegmentSuffix`: panics whenever the outer segment
suffix is nonempty (no embedding support). -/
def fullSegmentSuffix (fieldName outerSegmentSuffix segmentSuffix : String) :
    Except String String :=
  if outerSegmentSuffix.length = 0 then .ok segmentSuffix
  else .error ("cannot embed PerFieldPostingsFormat inside itself (field " ++
    fieldName ++ " returned PerFieldPostingsFormat)")

/--
Embedding of `PerFieldPostingsWriter.addField`.  `policy` is the external
`postingsFormatForField` mapping (`none` models a nil format).  Opening a
consumer for a new format instance always succeeds against the abstract
codec and is modelled by allocating a fresh consumer identity.  The
branch taken when the format instance is already present in the routing
map is `panic("not implemented yet")` in the source.
-/
def addField (policy : String → Option PostingsFormat)
    (w : PerFieldPostingsWriter) (field : FieldInfoW) :
    Except String (PerFieldPostingsWriter × FieldInfoW × FieldsConsumerAndSuffix) :=
  match policy field.name with
  | none => .error ("invalid nil PostingsFormat for field " ++ field.name)
  | some format =>
    let formatName := format.name
    let p1 := putAttribute field PER_FIELD_FORMAT_KEY formatName
    if p1.1 ≠ "" then .error "assert failed: format attribute already set" else
    match w.formats.lookup format with
    | none =>
      let suffix : Nat :=
        match w.suffixes.lookup formatName with
        | none => 0
        | some s => s + 1
      match fullSegmentSuffix field.name w.outerSuffix
          (suffixOf formatName (Nat.repr suffix)) with
      | .error e => .error e
      | .ok _ =>
        let consumer : FieldsConsumerAndSuffix := ⟨w.nextConsumerId, suffix⟩
        let w1 : PerFieldPostingsWriter :=
          { w with
            formats := (format, consumer) :: w.formats
            suffixes := (formatName, suffix) :: w.suffixes
            nextConsumerId := w.nextConsumerId + 1 }
        let p2 := putAttribute p1.2 PER_FIELD_SUFFIX_KEY (Nat.repr suffix)
        if p2.1 ≠ "" then .error "assert failed: suffix attribute already set" else
        .ok (w1, p2.2, consumer)
    | some _ => .error "panic: not implemented yet"

/- ## Per-field format dispatcher, read side (perfield.go) -/

/-- The slice of the external field-metadata record the read-side
constructors consume. -/
structure FieldInfoR where
  name : String
  isIndexed : Bool
  hasDocValues : Bool
  attrs : List (String × String)
deriving DecidableEq, Repr

/-- `fi.Attribute(key)` of the external field metadata: empty string when
the key is absent, which is the sentinel both constructors test. -/
def attributeOf (fi : FieldInfoR) (k : String) : String :=
  (fi.attrs.lookup k).getD ""

/-- Embedding of `PerFieldPostingsReader`: field name to producer and
composite suffix key to producer; producers are identity numbers handed
out by the abstract codec loader. -/
structure PerFieldPostingsReader where
  fields : List (String × Nat)
  formats : List (String × Nat)
deriving DecidableEq, Repr

/-- Outcome of `newPerFieldPostingsReader`: either the constructed reader,
or the surfaced error together with the producers the deferred cleanup
closed (errors during that cleanup are suppressed). -/
inductive PostingsBuild where
  | ok (r : PerFieldPostingsReader)
  | fail (err : String) (closed : List Nat)
deriving DecidableEq, Repr

/--
The field-metadata loop of `newPerFieldPostingsReader`.  `opener` models
`LoadPostingsFormat(formatName).FieldsProducer(state with segmentSuffix)`;
on any failure (including the suffix assertion panic) the deferred
cleanup closes every producer recorded in `formats` so far.
-/
def buildPostingsLoop (opener : String → String → Except String Nat) :
    List FieldInfoR → List (String × Nat) → List (String × Nat) → PostingsBuild
  | [], fields, formats => .ok ⟨fields, formats⟩
  | fi :: rest, fields, formats =>
    if fi.isIndexed then
      let formatName := attributeOf fi PER_FIELD_FORMAT_KEY
      if formatName ≠ "" then
        let suffix := attributeOf fi PER_FIELD_SUFFIX_KEY
        if suffix = "" then .fail "assert failed: empty suffix" (formats.map Prod.snd)
        else
          let segmentSuffix := formatName ++ "_" ++ suffix
          match formats.lookup segmentSuffix with
          | some p => buildPostingsLoop opener rest ((fi.name, p) :: fields) formats
          | none =>
            match opener formatName segmentSuffix with
            | .error e => .fail e (formats.map Prod.snd)
            | .ok p =>
              buildPostingsLoop opener rest
                ((fi.name, p) :: fields) ((segmentSuffix, p) :: formats)
      else buildPostingsLoop opener rest fields formats
    else buildPostingsLoop opener rest fields formats

def newPerFieldPostingsReader (opener : String → String → Except String Nat)
    (fieldInfos : List FieldInfoR) : PostingsBuild :=
  buildPostingsLoop opener fieldInfos [] []

/-- Embedding of `PerFieldPostingsReader.Terms`: delegates through the
field map, answers `none` (Go nil) for an unmapped field.
`producerTerms` models the `Terms` call on the underlying producer. -/
def PerFieldPostingsReader.Terms (producerTerms : Nat → String → Option Nat)
    (r : PerFieldPostingsReader) (field : String) : Option Nat :=
  match r.fields.lookup field with
  | some p => producerTerms p field
  | none => none

/-- Embedding of `PerFieldDocValuesReader`.  A `none` producer in the
field map models the Go nil interface value that a missing-key map read
yields. -/
structure PerFieldDocValuesReader where
  fields : List (String × Option Nat)
  formats : List (String × Nat)
deriving DecidableEq, Repr

/--
The field-metadata loop of `newPerFieldDocValuesReader`.  In the source,
the result of `LoadDocValuesProducer` is bound as
`if p, err := ...; err == nil`, a short variable declaration whose `err`
shadows the named return value: a load failure is silently dropped, the
loop continues, and the composite-key map read that follows yields the
Go zero value (nil).  The loop therefore cannot fail.
-/
def buildDocValuesLoop (loadDV : String → String → Except String Nat) :
    List FieldInfoR → List (String × Option Nat) → List (String × Nat) →
    List (String × Option Nat) × List (String × Nat)
  | [], fields, formats => (fields, formats)
  | fi :: rest, fields, formats =>
    if fi.hasDocValues then
      let formatName := attributeOf fi PER_FIELD_FORMAT_KEY
      if formatName ≠ "" then
        let suffix := attributeOf fi PER_FIELD_SUFFIX_KEY
        let segmentSuffix := formatName ++ "_" ++ suffix
        let formats1 :=
          match formats.lookup segmentSuffix with
          | some _ => formats
          | none =>
            match loadDV formatName segmentSuffix with
            | .ok p => (segmentSuffix, p) :: formats
            | .error _ => formats
        buildDocValuesLoop loadDV rest
          ((fi.name, formats1.lookup segmentSuffix) :: fields) formats1
      else buildDocValuesLoop loadDV rest fields formats
    else buildDocValuesLoop loadDV rest fields formats

/-- Embedding of `newPerFieldDocValuesReader`: the named return error is
never assigned (see `buildDocValuesLoop`), so construction always
returns a reader. -/
def newPerFieldDocValuesReader (loadDV : String → String → Except String Nat)
    (fieldInfos : List FieldInfoR) : Except String PerFieldDocValuesReader :=
  let ff := buildDocValuesLoop loadDV fieldInfos [] []
  .ok ⟨ff.1, ff.2⟩

/-- Embedding of `PerFieldDocValuesReader.Numeric`: a field absent from
the map yields `(nil, nil)`; a field mapped to a nil producer would be a
nil dereference panic; otherwise the call delegates. -/
def PerFieldDocValuesReader.Numeric
    (producerNumeric : Nat → String → Except String (Option Nat))
    (dvp : PerFieldDocValuesReader) (field : FieldInfoR) :
    Except String (Option Nat) :=
  match dvp.fields.lookup field.name with
  | some (some p) => producerNumeric p field.name
  | some none => .error "panic: nil pointer dereference"
  | none => .ok none

/-- Embedding of `PerFieldDocValuesReader.Binary`. -/
def PerFieldDocValuesReader.Binary
    (producerBinary : Nat → String → Except String (Option Nat))
    (dvp : PerFieldDocValuesReader) (field : FieldInfoR) :
    Except String (Option Nat) :=
  match dvp.fields.lookup field.name with
  | some (some p) => producerBinary p field.name
  | some none => .error "panic: nil pointer dereference"
  | none => .ok none

/-- Embedding of `PerFieldDocValuesReader.Sorted`. -/
def PerFieldDocValuesReader.Sorted
    (producerSorted : Nat → String → Except String (Option Nat))
    (dvp : PerFieldDocValuesReader) (field : FieldInfoR) :
    Except String (Option Nat) :=
  match dvp.fields.lookup field.name with
  | some (some p) => producerSorted p field.name
  | some none => .error "panic: nil pointer dereference"
  | none => .ok none

/-- Embedding of `PerFieldDocValuesReader.SortedSet`. -/
def PerFieldDocValuesReader.SortedSet
    (producerSortedSet : Nat → String → Except String (Option Nat))
    (dvp : PerFieldDocValuesReader) (field : FieldInfoR) :
    Except String (Option Nat) :=
  match dvp.fields.lookup field.name with
  | some (some p) => producerSortedSet p field.name
  | some none => .error "panic: nil pointer dereference"
  | none => .ok none

/- ## Postings backing-store adapter (invertedDocConsumerPerField.go) -/

/-- Embedding of `ParallelPostingsArray`.  `bytesPerPosting` is the
consumer-specific per-slot footprint reported by the embedded
`PostingsArray` implementation. -/
structure ParallelPostingsArray where
  size : Nat
  bytesPerPosting : Nat
  textStarts : List Int
  intStarts : List Int
  byteStarts : List Int
deriving DecidableEq, Repr

/-- The observable state behind `PostingsBytesStartArray`: the
`postingsArray` slot of the owning `TermsHashPerField` and the shared
`bytesUsed` counter. -/
structure PostingsBytesStartArray where
  postingsArray : Option ParallelPostingsArray
  bytesUsed : Int
deriving DecidableEq, Repr

/--
Embedding of `PostingsBytesStartArray.Init`.  `create` models
`perField.consumer.createPostingsArray`, the consumer-specific
allocation; the source calls it with capacity 2.  When columns already
exist the existing text-start column is returned and nothing changes.
-/
def PostingsBytesStartArray.Init (create : Nat → ParallelPostingsArray)
    (ss : PostingsBytesStartArray) : List Int × PostingsBytesStartArray :=
  match ss.postingsArray with
  | none =>
    let arr := create 2
    (arr.textStarts,
     { postingsArray := some arr
       bytesUsed := ss.bytesUsed + Int.ofNat (arr.size * arr.bytesPerPosting) })
  | some arr => (arr.textStarts, ss)

/-- Embedding of `PostingsBytesStartArray.Clear`: deducts the footprint
of the live columns, discards them, and returns nil. -/
def PostingsBytesStartArray.Clear (ss : PostingsBytesStartArray) :
    Option (List Int) × PostingsBytesStartArray :=
  match ss.postingsArray with
  | some arr =>
    (none,
     { postingsArray := none
       bytesUsed := ss.bytesUsed - Int.ofNat (arr.size * arr.bytesPerPosting) })
  | none => (none, ss)

/- ## Theorems -/

/--
C1: evaluated on the code, the claim fails.  From the state delGen=-1,
nextWriteDelGen=1, a successful delete-write (advanceDelGen) yields
delGen=1 but nextWriteDelGen=0, not the claimed 2: the simultaneous
tuple assignment computes the new nextWriteDelGen from the OLD delGen,
so nextWriteDelGen does not strictly exceed the just-assigned delGen,
and a second successful write yields delGen=0, nextWriteDelGen=2
instead of the claimed delGen=2, nextWriteDelGen=3.
-/
theorem advanceDelGen_tuple_regression :
    (advanceDelGen ⟨0, -1, 1, -1, 0, 5, []⟩).delGen = 1 ∧
    (advanceDelGen ⟨0, -1, 1, -1, 0, 5, []⟩).nextWriteDelGen = 0 ∧
    ¬ (advanceDelGen ⟨0, -1, 1, -1, 0, 5, []⟩).delGen <
        (advanceDelGen ⟨0, -1, 1, -1, 0, 5, []⟩).nextWriteDelGen ∧
    (advanceDelGen (advanceDelGen ⟨0, -1, 1, -1, 0, 5, []⟩)).delGen = 0 ∧
    (advanceDelGen (advanceDelGen ⟨0, -1, 1, -1, 0, 5, []⟩)).nextWriteDelGen = 2 := by
  decide

/--
C4: a failed delete-write attempt (advanceNextWriteDelGen) increments
nextWriteDelGen by exactly one and leaves every other field of the
record unchanged; in particular from delGen=1, nextWriteDelGen=2 it
yields delGen=1, nextWriteDelGen=3.
-/
theorem advanceNextWriteDelGen_frame (si : SegmentCommitInfo) :
    (advanceNextWriteDelGen si).nextWriteDelGen = si.nextWriteDelGen + 1 ∧
    (advanceNextWriteDelGen si).delGen = si.delGen ∧
    (advanceNextWriteDelGen si).delCount = si.delCount ∧
    (advanceNextWriteDelGen si).sizeInBytes = si.sizeInBytes ∧
    (advanceNextWriteDelGen si).bufferedUpdatesGen = si.bufferedUpdatesGen ∧
    (advanceNextWriteDelGen si).docCount = si.docCount ∧
    (advanceNextWriteDelGen si).files = si.files ∧
    (advanceNextWriteDelGen ⟨0, 1, 2, -1, 0, 5, []⟩).delGen = 1 ∧
    (advanceNextWriteDelGen ⟨0, 1, 2, -1, 0, 5, []⟩).nextWriteDelGen = 3 :=
  ⟨rfl, rfl, rfl, rfl, rfl, rfl, rfl, by decide, by decide⟩

def demoDir : Directory := ⟨fun _ => .ok 5⟩

def demoSi : SegmentCommitInfo := ⟨0, -1, 1, -1, 0, 5, ["a", "b"]⟩

def failDir : Directory := ⟨fun _ => .error "io failure"⟩

/--
C6: evaluated on the code, the claim fails.  `Files()` unconditionally
panics, so the first SizeInBytes call from an unset cache propagates
that panic after zero FileLength queries: no successful first call
exists to sum file lengths and populate the cache.  Only the cached
branch is implemented: a record whose cache is already set is answered
with zero queries.
-/
theorem sizeInBytes_first_call_panics_in_files :
    SizeInBytes demoDir demoSi =
      ⟨.error "panic: not implemented yet", demoSi, 0⟩ ∧
    SizeInBytes demoDir { demoSi with sizeInBytes := 10 } =
      ⟨.ok 10, { demoSi with sizeInBytes := 10 }, 0⟩ :=
  ⟨rfl, rfl⟩

/--
C7: evaluated on the code, the claimed scenario is unreachable.  Every
SizeInBytes call performs zero FileLength queries — the unset-cache
branch panics in the unimplemented `Files()` before reaching the
summation loop, and the set-cache branch answers from the cache — so a
directory failure can never occur during SizeInBytes; even against a
directory whose every FileLength query fails, the call surfaces the
`Files()` panic, never a FileLength error.
-/
theorem sizeInBytes_never_queries_directory (d : Directory)
    (si : SegmentCommitInfo) :
    (SizeInBytes d si).queries = 0 ∧
    SizeInBytes failDir demoSi =
      ⟨.error "panic: not implemented yet", demoSi, 0⟩ := by
  constructor
  · unfold SizeInBytes
    by_cases hc : si.sizeInBytes = -1
    · rw [if_pos hc]; rfl
    · rw [if_neg hc]
  · rfl

/--
C9: setDelCount accepts exactly the values n with 0 ≤ n ≤ docCount,
updating delCount to n (both boundaries included), and fails with an
invariant violation for every n outside that range.
-/
theorem setDelCount_range_spec (si : SegmentCommitInfo) (n : Int) :
    (setDelCount si n = .ok { si with delCount := n } ↔ 0 ≤ n ∧ n ≤ si.docCount) ∧
    ((setDelCount si n).toOption = none ↔ (n < 0 ∨ si.docCount < n)) := by
  unfold setDelCount
  by_cases h : 0 ≤ n ∧ n ≤ si.docCount
  · rw [if_pos h]
    refine ⟨⟨fun _ => h, fun _ => rfl⟩, ?_⟩
    simp [Except.toOption]
    omega
  · rw [if_neg h]
    refine ⟨⟨fun hh => absurd hh (by simp), fun hh => absurd hh h⟩, ?_⟩
    simp [Except.toOption]
    omega

/--
C10 counterexample: from a record whose cache holds 10, the SizeInBytes
call that follows setBufferedUpdatesGen does NOT re-query the directory:
it performs zero FileLength queries and propagates the panic of the
unimplemented `Files()` instead, refuting the claimed consequence at
this concrete input.
-/
theorem setBufferedUpdatesGen_no_requery_counterexample :
    (SizeInBytes demoDir
      (setBufferedUpdatesGen { demoSi with sizeInBytes := 10 } 42)).queries = 0 ∧
    (SizeInBytes demoDir
      (setBufferedUpdatesGen { demoSi with sizeInBytes := 10 } 42)).result =
      .error "panic: not implemented yet" :=
  ⟨rfl, rfl⟩

/--
C10 amended: setBufferedUpdatesGen stores the tracking generation and
also sets the size cache to the unset sentinel, so the next SizeInBytes
call does not return the previously cached sum: it takes the recompute
branch, which in the current source propagates the panic of the
unimplemented `Files()` after zero directory queries.
-/
theorem setBufferedUpdatesGen_invalidates_size_cache
    (si : SegmentCommitInfo) (v : Int) (d : Directory) :
    (setBufferedUpdatesGen si v).bufferedUpdatesGen = v ∧
    (setBufferedUpdatesGen si v).sizeInBytes = -1 ∧
    SizeInBytes d (setBufferedUpdatesGen si v) =
      ⟨.error "panic: not implemented yet", setBufferedUpdatesGen si v, 0⟩ := by
  refine ⟨rfl, rfl, ?_⟩
  unfold SizeInBytes
  rw [if_pos (show (setBufferedUpdatesGen si v).sizeInBytes = -1 from rfl)]
  rfl

def demoPolicy : String → Option PostingsFormat := fun _ => some ⟨0, "Lucene40"⟩

def demoWriter : PerFieldPostingsWriter := ⟨[], [], 0, ""⟩

/--
C2: evaluated on the code, the claim fails in its same-instance half.
The first addField call, on a field resolving to the format instance
(0, Lucene40), allocates suffix 0 for the name Lucene40 and opens
consumer 0; the second call, on a different field resolving to the SAME
instance, takes the already-seen branch of the routing map, which in the
source is panic not-implemented-yet rather than routing to the shared
consumer.
-/
theorem addField_second_same_instance_panics :
    addField demoPolicy demoWriter ⟨"title", []⟩ =
      .ok (⟨[(⟨0, "Lucene40"⟩, ⟨0, 0⟩)], [("Lucene40", 0)], 1, ""⟩,
        ⟨"title", [(PER_FIELD_SUFFIX_KEY, "0"), (PER_FIELD_FORMAT_KEY, "Lucene40")]⟩,
        ⟨0, 0⟩) ∧
    addField demoPolicy ⟨[(⟨0, "Lucene40"⟩, ⟨0, 0⟩)], [("Lucene40", 0)], 1, ""⟩
        ⟨"body", []⟩ =
      .error "panic: not implemented yet" :=
  ⟨rfl, rfl⟩

def demoOpener : String → String → Except String Nat :=
  fun formatName _ => if formatName = "FmtA" then .ok 7 else .error "boom"

def fiA : FieldInfoR :=
  ⟨"a", true, true, [(PER_FIELD_FORMAT_KEY, "FmtA"), (PER_FIELD_SUFFIX_KEY, "0")]⟩

def fiB : FieldInfoR :=
  ⟨"b", true, true, [(PER_FIELD_FORMAT_KEY, "FmtB"), (PER_FIELD_SUFFIX_KEY, "0")]⟩

/--
C3: evaluated on the code, the claim holds for the postings constructor
but fails for the doc-values constructor.  Over fields a and b, where
opening the producer for the format of b fails, newPerFieldPostingsReader
surfaces the error and closes the already-opened producer 7; on the same
metadata and the same failing loader, newPerFieldDocValuesReader returns
success (the load error is swallowed by a shadowed err variable) with a
reader that maps field b to a nil producer.
-/
theorem reader_construction_failure_divergence :
    newPerFieldPostingsReader demoOpener [fiA, fiB] = .fail "boom" [7] ∧
    newPerFieldDocValuesReader demoOpener [fiA, fiB] =
      .ok ⟨[("b", none), ("a", some 7)], [("FmtA_0", 7)]⟩ :=
  ⟨rfl, rfl⟩

/--
C8: a field not present in the field-to-producer map of a read-side
dispatcher yields an empty result and never an error from every query
operation: Terms answers nil, and Numeric, Binary, Sorted and SortedSet
answer (nil, nil).
-/
theorem unmapped_field_queries_empty
    (pt : Nat → String → Option Nat)
    (pn pb ps pss : Nat → String → Except String (Option Nat))
    (r : PerFieldPostingsReader) (dvp : PerFieldDocValuesReader)
    (f : String) (fi : FieldInfoR)
    (h1 : r.fields.lookup f = none)
    (h2 : dvp.fields.lookup fi.name = none) :
    r.Terms pt f = none ∧
    dvp.Numeric pn fi = .ok none ∧
    dvp.Binary pb fi = .ok none ∧
    dvp.Sorted ps fi = .ok none ∧
    dvp.SortedSet pss fi = .ok none := by
  unfold PerFieldPostingsReader.Terms PerFieldDocValuesReader.Numeric
    PerFieldDocValuesReader.Binary PerFieldDocValuesReader.Sorted
    PerFieldDocValuesReader.SortedSet
  rw [h1, h2]
  exact ⟨rfl, rfl, rfl, rfl, rfl⟩

def emptyPostingsReader : PerFieldPostingsReader := ⟨[], []⟩

def emptyDocValuesReader : PerFieldDocValuesReader := ⟨[], []⟩

def fiGhost : FieldInfoR := ⟨"ghost", true, true, []⟩

/--
Witness for C8 at concrete empty readers and an unmapped field name.
-/
theorem unmapped_field_queries_empty_witness :
    emptyPostingsReader.Terms (fun _ _ => none) "ghost" = none ∧
    emptyDocValuesReader.Numeric (fun _ _ => .ok none) fiGhost = .ok none ∧
    emptyDocValuesReader.Binary (fun _ _ => .ok none) fiGhost = .ok none ∧
    emptyDocValuesReader.Sorted (fun _ _ => .ok none) fiGhost = .ok none ∧
    emptyDocValuesReader.SortedSet (fun _ _ => .ok none) fiGhost = .ok none :=
  unmapped_field_queries_empty (fun _ _ => none) (fun _ _ => .ok none)
    (fun _ _ => .ok none) (fun _ _ => .ok none) (fun _ _ => .ok none)
    emptyPostingsReader emptyDocValuesReader "ghost" fiGhost rfl rfl

/--
C5: for the backing-store adapter with no live columns: Init allocates
columns of capacity 2 via the consumer and charges their footprint to
the counter; while columns are allocated a further Init returns the same
text-start column and changes nothing; Clear deducts exactly the charge
taken at allocation so the counter returns to its pre-allocation value,
discards the columns, and returns nil; a subsequent Init reallocates and
charges again.
-/
theorem postingsBytesStartArray_lifecycle
    (create : Nat → ParallelPostingsArray) (ss : PostingsBytesStartArray)
    (h : ss.postingsArray = none) :
    (ss.Init create).2.postingsArray = some (create 2) ∧
    (ss.Init create).2.bytesUsed =
      ss.bytesUsed + Int.ofNat ((create 2).size * (create 2).bytesPerPosting) ∧
    ((ss.Init create).2).Init create = ((ss.Init create).1, (ss.Init create).2) ∧
    ((ss.Init create).2).Clear = (none, ⟨none, ss.bytesUsed⟩) ∧
    ((((ss.Init create).2).Clear.2).Init create).2.postingsArray = some (create 2) ∧
    ((((ss.Init create).2).Clear.2).Init create).2.bytesUsed =
      ss.bytesUsed + Int.ofNat ((create 2).size * (create 2).bytesPerPosting) := by
  obtain ⟨pa, bu⟩ := ss
  simp only at h
  subst h
  refine ⟨rfl, rfl, rfl, ?_, rfl, ?_⟩
  · simp [PostingsBytesStartArray.Init, PostingsBytesStartArray.Clear]
  · simp [PostingsBytesStartArray.Init, PostingsBytesStartArray.Clear]

def demoCreate : Nat → ParallelPostingsArray :=
  fun n => ⟨n, 12, List.replicate n 0, List.replicate n 0, List.replicate n 0⟩

/--
Witness for C5 at a concrete consumer allocation (12 bytes per slot) and
counter value 100: the full Init, Init, Clear, Init lifecycle.
-/
theorem postingsBytesStartArray_lifecycle_witness :
    ((⟨none, 100⟩ : PostingsBytesStartArray).Init demoCreate).2.postingsArray =
      some (demoCreate 2) ∧
    ((⟨none, 100⟩ : PostingsBytesStartArray).Init demoCreate).2.bytesUsed =
      (⟨none, 100⟩ : PostingsBytesStartArray).bytesUsed +
        Int.ofNat ((demoCreate 2).size * (demoCreate 2).bytesPerPosting) ∧
    (((⟨none, 100⟩ : PostingsBytesStartArray).Init demoCreate).2).Init demoCreate =
      (((⟨none, 100⟩ : PostingsBytesStartArray).Init demoCreate).1,
       ((⟨none, 100⟩ : PostingsBytesStartArray).Init demoCreate).2) ∧
    (((⟨none, 100⟩ : PostingsBytesStartArray).Init demoCreate).2).Clear =
      (none, ⟨none, (⟨none, 100⟩ : PostingsBytesStartArray).bytesUsed⟩) ∧
    (((((⟨none, 100⟩ : PostingsBytesStartArray).Init demoCreate).2).Clear.2).Init
        demoCreate).2.postingsArray = some (demoCreate 2) ∧
    (((((⟨none, 100⟩ : PostingsBytesStartArray).Init demoCreate).2).Clear.2).Init
        demoCreate).2.bytesUsed =
      (⟨none, 100⟩ : PostingsBytesStartArray).bytesUsed +
        Int.ofNat ((demoCreate 2).size * (demoCreate 2).bytesPerPosting) :=
  postingsBytesStartArray_lifecycle demoCreate ⟨none, 100⟩ rfl
